import Mathlib

/-!
Verification of the Omani mental-health assistant's decision logic.

Shallow embedding of the repository's pure decision logic:
  - `config.py`: the static crisis-keyword and code-switching tables;
  - `ai_service.py`: `AIService._detect_crisis`, `AIService._detect_codeswitching`,
    and the conversation-history update of `AIService.get_response`;
  - `dual_model_service.py`: `DualModelValidator`'s score/flag extraction,
    `_analyze_consensus`, and `validate_response`;
  - `speech_service.py`: the input-validation and language-fallback logic of
    `SpeechService.speech_to_text`.

Modelling conventions:
  - Python `str` is modelled as `List Char`; `str.lower()` is modelled
    character-wise (`Char.toLower`, the identity on the Arabic block and on all
    characters appearing in the static tables); the Python substring test
    `a in b` is `pyIn`.
  - Python floats are modelled as `ℚ` (all numeric literals involved are exact
    decimals and the logic only compares and takes min/abs of them).
  - Network calls are modelled as oracle parameters of type `Except String α`:
    `.error e` stands for the vendor call raising an exception with message
    `e`, `.ok v` for it returning `v`.  Wall-clock fields (`response_time`,
    `processing_time`) are modelled as `0`; they feed no decision.
-/

attribute [local semireducible] Rat.add Rat.mul Rat.sub Rat.inv

/-- Character-wise lower-casing, modelling Python's `str.lower()` on the
character range used by the static tables (ASCII letters; the Arabic block is
fixed by both). -/
def pyLower (s : List Char) : List Char := s.map Char.toLower

/-- Python's substring test `needle in hay`: the needle occurs contiguously in
the haystack. -/
def pyIn : List Char → List Char → Bool
  | needle, [] => needle.isEmpty
  | needle, hay@(_ :: t) => needle.isPrefixOf hay || pyIn needle t

/-- Python's `str.strip()` / the regex class `\s`: ASCII whitespace
(space, tab, newline, carriage return, vertical tab, form feed). -/
def isPySpace (c : Char) : Bool :=
  c = ' ' || c = '\t' || c = '\n' || c = '\r' || c.toNat = 11 || c.toNat = 12

/-- Python's `str.strip()`. -/
def pyStrip (s : List Char) : List Char :=
  (s.dropWhile isPySpace).reverse.dropWhile isPySpace |>.reverse

/-! ## `config.py`: static keyword tables -/

/-- `config.CRISIS_KEYWORDS_AR` (config.py lines 53-56). -/
def CRISIS_KEYWORDS_AR : List (List Char) :=
  ["انتحار".toList, "اقتل نفسي".toList, "أريد أن أموت".toList,
   "لا أستطيع أكثر".toList, "سأنهي حياتي".toList, "أفكر في الموت".toList,
   "أريد أن أختفي".toList]

/-- `config.CRISIS_KEYWORDS_EN` (config.py lines 58-61). -/
def CRISIS_KEYWORDS_EN : List (List Char) :=
  ["suicide".toList, "kill myself".toList, "want to die".toList,
   "end my life".toList, "thinking about death".toList,
   "want to disappear".toList, "can\x27t go on".toList]

/-- `config.CRISIS_KEYWORDS_MIXED` (config.py lines 64-68). -/
def CRISIS_KEYWORDS_MIXED : List (List Char) :=
  ["I want to انتحار".toList, "أريد أن أموت really".toList,
   "لا أستطيع anymore".toList, "سأنهي my life".toList,
   "thinking about الموت".toList, "can\x27t go on بعد اليوم".toList,
   "want to die والله".toList, "depression شديد".toList,
   "feeling hopeless يا رب".toList]

/-- `config.CODESWITCHING_PATTERNS` (config.py lines 90-97): category name to
its list of mixed-language phrase fragments. -/
def CODESWITCHING_PATTERNS : List (String × List (List Char)) :=
  [("time_expressions", ["today اليوم".toList, "tomorrow بكرة".toList,
                         "now الحين".toList, "later بعدين".toList]),
   ("feelings", ["happy مبسوط".toList, "sad حزين".toList,
                 "stressed متوتر".toList, "tired تعبان".toList]),
   ("family", ["my family أهلي".toList, "my mom أمي".toList,
               "my dad أبوي".toList, "my kids عيالي".toList]),
   ("work", ["my work شغلي".toList, "my job وظيفتي".toList,
             "my boss المدير".toList, "colleague زميل".toList]),
   ("common_phrases", ["wallah والله".toList, "yalla يلا".toList,
                       "inshallah إن شاء الله".toList,
                       "mashallah ماشاء الله".toList]),
   ("transitions", ["بس but".toList, "لكن however".toList,
                    "يعني I mean".toList, "أو or".toList])]

/-! ## `ai_service.py`: crisis and code-switching detectors -/

/-- `AIService._detect_crisis` (ai_service.py lines 241-260): lower-case the
text and return `True` on the first keyword (from the Arabic, English, then
mixed list) occurring in it as a substring; the mixed keywords are themselves
lower-cased before the test. -/
def detect_crisis (text : List Char) : Bool :=
  let text_lower := pyLower text
  CRISIS_KEYWORDS_AR.any (fun k => pyIn k text_lower) ||
  CRISIS_KEYWORDS_EN.any (fun k => pyIn k text_lower) ||
  CRISIS_KEYWORDS_MIXED.any (fun k => pyIn (pyLower k) text_lower)

/-- A character of the Arabic Unicode block, as tested by
`'؀' <= char <= 'ۿ'` in `_detect_codeswitching`. -/
def isArabicChar (c : Char) : Bool := 0x0600 ≤ c.toNat && c.toNat ≤ 0x06FF

/-- An ASCII letter, as tested by `char.isalpha() and ord(char) < 128`. -/
def isAsciiLetter (c : Char) : Bool := c.isAlpha && c.toNat < 128

/-- The `codeswitching_indicators` counter of `_detect_codeswitching`
(ai_service.py lines 273-278): the number of patterns of
`CODESWITCHING_PATTERNS` whose lower-casing occurs in the lowered text. -/
def codeswitching_indicators (text_lower : List Char) : ℕ :=
  (CODESWITCHING_PATTERNS.map
    (fun cat => cat.2.countP (fun p => pyIn (pyLower p) text_lower))).sum

/-- `AIService._detect_codeswitching` (ai_service.py lines 262-286): false on
empty text, else true iff both an Arabic-block character and an ASCII letter
are present, or at least two code-switching patterns occur in the lowered
text. -/
def detect_codeswitching (text : List Char) : Bool :=
  if text.isEmpty then false
  else
    let has_arabic := text.any isArabicChar
    let has_english := text.any isAsciiLetter
    let indicators := codeswitching_indicators (pyLower text)
    (has_arabic && has_english) || indicators ≥ 2

/-! ## `dual_model_service.py`: data model -/

/-- `ValidationStatus` (dual_model_service.py lines 27-32). -/
inductive ValidationStatus where
  | PASSED
  | FAILED
  | CONFLICT
  | ERROR
deriving DecidableEq, Repr

/-- `ModelResponse` (dual_model_service.py lines 34-43).  `response_time` is a
wall-clock measurement, modelled as `0` (it feeds no decision). -/
structure ModelResponse where
  content : List Char
  model_name : String
  response_time : ℚ
  token_count : Option ℕ := none
  confidence_score : Option ℚ := none
  safety_flags : Option (List String) := none
  therapeutic_quality : Option ℚ := none
deriving DecidableEq, Repr

/-- The `safety_assessment` dict built by `_analyze_consensus` (lines 408-412).
The fallback result of `validate_response` (line 337) builds a dict with only
the `status` and `recommendation` keys; there `flags` is modelled as `[]`. -/
structure SafetyAssessment where
  flags : List String
  status : String
  recommendation : String
deriving DecidableEq, Repr

/-- The dict returned by `_analyze_consensus` (lines 402-413). -/
structure ConsensusResult where
  final_response : List Char
  status : ValidationStatus
  consensus_score : ℚ
  therapeutic_grade : String
  recommendations : List String
  safety_assessment : SafetyAssessment
deriving DecidableEq, Repr

/-- `DualModelResult` (dual_model_service.py lines 45-56).  `validation_time`
is wall-clock, modelled as `0`. -/
structure DualModelResult where
  primary_response : ModelResponse
  secondary_response : ModelResponse
  final_response : List Char
  validation_status : ValidationStatus
  consensus_score : ℚ
  therapeutic_grade : String
  validation_time : ℚ
  recommendations : List String
  safety_assessment : SafetyAssessment
deriving DecidableEq, Repr

/-! ## `dual_model_service.py`: regex extractors

The score extractors run `re.search(pattern, content, re.IGNORECASE)` with
patterns of the shape `LITERAL:\s*(\d+(?:\.\d+)?)`.  `re.search` finds the
leftmost position at which the whole pattern matches; the captured decimal is
converted by `float(...)`, here to the exact rational it denotes. -/

/-- Case-insensitive literal match at the head of the text: `some rest` when
`lit` (compared character-wise, lower-cased) is a prefix, with `rest` what
follows it. -/
def stripPrefixCI : List Char → List Char → Option (List Char)
  | [], s => some s
  | _ :: _, [] => none
  | p :: ps, c :: cs => if p.toLower = c.toLower then stripPrefixCI ps cs else none

/-- The digits of a decimal run as a natural number. -/
def digitsToNat (ds : List Char) : ℕ :=
  ds.foldl (fun a c => 10 * a + (c.toNat - 48)) 0

/-- Match `\s*(\d+(?:\.\d+)?)` at the head of the text and return the value of
the captured group (`\d+` is greedy; the fractional part is kept only when at
least one digit follows the dot, as the regex requires).  `\d` is modelled as
the ASCII digits (Python's `\d` also admits other Unicode decimal digits;
none occur in the inputs reasoned about here). -/
def matchNumber (s : List Char) : Option ℚ :=
  let s1 := s.dropWhile isPySpace
  let ip := s1.takeWhile Char.isDigit
  let rest := s1.dropWhile Char.isDigit
  if ip.isEmpty then none
  else
    match rest with
    | '.' :: r2 =>
      let fp := r2.takeWhile Char.isDigit
      if fp.isEmpty then some (mkRat (digitsToNat ip) 1)
      else some (mkRat (digitsToNat (ip ++ fp)) (10 ^ fp.length))
    | _ => some (mkRat (digitsToNat ip) 1)

/-- `re.search` for `lit` followed by `\s*(\d+(?:\.\d+)?)` (case-insensitive):
try each position from the left; at a position where the literal matches but no
digits follow, the engine moves on to the next position. -/
def reSearchScore (lit : List Char) : List Char → Option ℚ
  | [] => none
  | s@(_ :: t) =>
    (match stripPrefixCI lit s with
     | some rest => matchNumber rest
     | none => none).orElse (fun _ => reSearchScore lit t)

/-- `DualModelValidator._extract_quality_score` (lines 415-430): first match of
`Therapeutic Quality:`, then `Quality:`, then `Score:`, else the default 7.0. -/
def extract_quality_score (content : List Char) : ℚ :=
  match reSearchScore "Therapeutic Quality:".toList content with
  | some v => v
  | none =>
    match reSearchScore "Quality:".toList content with
    | some v => v
    | none =>
      match reSearchScore "Score:".toList content with
      | some v => v
      | none => 7

/-- `DualModelValidator._extract_validation_score` (lines 432-447): first match
of `Overall Score:`, then `Validation Score:`, then `Score:`, else 7.0. -/
def extract_validation_score (content : List Char) : ℚ :=
  match reSearchScore "Overall Score:".toList content with
  | some v => v
  | none =>
    match reSearchScore "Validation Score:".toList content with
    | some v => v
    | none =>
      match reSearchScore "Score:".toList content with
      | some v => v
      | none => 7

/-- `DualModelValidator._extract_safety_flags` (lines 449-461). -/
def extract_safety_flags (content : List Char) : List String :=
  let content_lower := pyLower content
  (if ["crisis", "emergency", "suicide", "harm"].any
      (fun w => pyIn w.toList content_lower) then ["crisis"] else [])
  ++ (if ["professional", "therapist", "counselor"].any
      (fun w => pyIn w.toList content_lower) then ["professional"] else [])
  ++ (if pyIn "caution".toList content_lower then ["caution"] else [])

/-- Truncate a line at the first case-insensitive occurrence of `lit`:
one line's worth of `re.sub(lit + ".*$", "", line)`. -/
def cutLineFrom (lit : List Char) : List Char → List Char
  | [] => []
  | c :: rest =>
    if (stripPrefixCI lit (c :: rest)).isSome then []
    else c :: cutLineFrom lit rest

/-- `re.sub(lit + ".*$", "", text, flags=re.MULTILINE | re.IGNORECASE)` for a
literal containing no newline: each line is truncated at the first occurrence
of the literal (`.*$` consumes to the end of the line, newlines stay). -/
def reSubLineTail (lit : List Char) (s : List Char) : List Char :=
  List.intercalate ['\n'] ((s.splitOn '\n').map (cutLineFrom lit))

/-- `DualModelValidator._clean_response` (lines 481-497): apply the four
line-tail deletions in order, then `strip()`. -/
def clean_response (response : List Char) : List Char :=
  pyStrip
    ((["VALIDATION ASSESSMENT:", "Therapeutic Quality:", "Safety Level:",
       "Cultural Appropriateness:"].map String.toList).foldl
      (fun acc pat => reSubLineTail pat acc) response)

/-- Everything after the first case-insensitive occurrence of `lit`. -/
def searchAfterCI (lit : List Char) : List Char → Option (List Char)
  | [] => none
  | c :: rest =>
    match stripPrefixCI lit (c :: rest) with
    | some r => some r
    | none => searchAfterCI lit rest

/-- The lazy group `(.*?)(?=\n\n|\nVALIDATION|\Z)` under `re.DOTALL` and
`re.IGNORECASE`: the shortest prefix after which `\n\n` or `\nVALIDATION`
follows, the whole rest when neither occurs. -/
def lazyCaptureToStop : List Char → List Char
  | [] => []
  | c :: rest =>
    if (stripPrefixCI "\n\n".toList (c :: rest)).isSome
        || (stripPrefixCI "\nVALIDATION".toList (c :: rest)).isSome then []
    else c :: lazyCaptureToStop rest

/-- `DualModelValidator._extract_improved_response` (lines 463-479): for the
first of the three labels that occurs, skip `\s*`, capture lazily up to
`\n\n` / `\nVALIDATION` / end, and return the captured group stripped. -/
def extract_improved_response (validation_content : List Char) : Option (List Char) :=
  (["IMPROVED RESPONSE:", "Better response:", "Revised:"].map String.toList).firstM
    (fun lit =>
      match searchAfterCI lit validation_content with
      | some r => some (pyStrip (lazyCaptureToStop (r.dropWhile isPySpace)))
      | none => none)

/-! ## `dual_model_service.py`: consensus analysis and validation pipeline -/

/-- `self.min_consensus_score` set in `DualModelValidator.__init__` (line 70). -/
def min_consensus_score : ℚ := mkRat 7 10

/-- The letter-grade ladder of `_analyze_consensus` (lines 355-367). -/
def therapeutic_grade_of (consensus_score : ℚ) : String :=
  if consensus_score ≥ mkRat 9 10 then "A+"
  else if consensus_score ≥ mkRat 8 10 then "A"
  else if consensus_score ≥ mkRat 7 10 then "B+"
  else if consensus_score ≥ mkRat 6 10 then "B"
  else if consensus_score ≥ mkRat 5 10 then "C"
  else "F"

/-- `" ".join(flags)`. -/
def joinWithSpace (flags : List String) : List Char :=
  List.intercalate " ".toList (flags.map String.toList)

/-- `DualModelValidator._analyze_consensus` (lines 340-413).

  - `x or 0.0` / `x or []` on the optional fields is `Option.getD` (a present
    `0.0` or `[]` is falsy in Python and yields the same default);
  - `list(set(a + b))` keeps exactly the distinct elements in unspecified
    order, modelled as `(a ++ b).dedup` (downstream only membership and a
    substring test on the space-join are used, both order-independent over the
    flag alphabet `crisis`/`professional`/`caution`/`error`);
  - numeric literals `10.0`, `0.9`, …, `3.0` are the exact rationals;
  - the source's `user_input` parameter is never read in the body and is
    omitted here. -/
def analyze_consensus (primary validation : ModelResponse) : ConsensusResult :=
  let primary_quality := primary.therapeutic_quality.getD 0
  let validation_score := validation.confidence_score.getD 0
  let primary_safety := primary.safety_flags.getD []
  let validation_safety := validation.safety_flags.getD []
  let all_safety_flags := (primary_safety ++ validation_safety).dedup
  let consensus_score := min (primary_quality / 10) (validation_score / 10)
  let therapeutic_grade := therapeutic_grade_of consensus_score
  let status :=
    if "error" ∈ all_safety_flags then ValidationStatus.ERROR
    else if "crisis" ∈ all_safety_flags then ValidationStatus.FAILED
    else if consensus_score ≥ min_consensus_score then ValidationStatus.PASSED
    else if |primary_quality - validation_score * 10| > 3 then ValidationStatus.CONFLICT
    else ValidationStatus.FAILED
  let recommendations :=
    (if consensus_score < mkRat 7 10 then
      ["Response quality below therapeutic threshold"] else [])
    ++ (if "crisis" ∈ all_safety_flags then ["Crisis intervention required"] else [])
    ++ (if pyIn "professional".toList (joinWithSpace all_safety_flags) then
      ["Professional referral recommended"] else [])
  let selected :=
    if status = ValidationStatus.PASSED then primary.content
    else if pyIn "improved".toList (pyLower validation.content) then
      match extract_improved_response validation.content with
      | some g => if g.isEmpty then primary.content else g
      | none => primary.content
    else primary.content
  { final_response := clean_response selected
    status := status
    consensus_score := consensus_score
    therapeutic_grade := therapeutic_grade
    recommendations := recommendations
    safety_assessment :=
      { flags := all_safety_flags
        status := if "crisis" ∈ all_safety_flags then "crisis" else "safe"
        recommendation := if "crisis" ∈ all_safety_flags then "emergency" else "continue" } }

/-- `DualModelValidator.get_primary_response` (lines 167-240).  The vendor
call (with its gpt-4 retry) is the oracle `outcome`: `.ok content` is a reply,
`.error e` an exception with message `e`; the `except` branch of the source
builds the error `ModelResponse` shown here.  Prompt assembly and the
conversation history feed only the vendor call and are absorbed into the
oracle; `token_count` is vendor metadata, modelled as `none`. -/
def get_primary_response (outcome : Except (List Char) (List Char)) : ModelResponse :=
  match outcome with
  | .ok content =>
    { content := content
      model_name := "gpt-4o"
      response_time := 0
      token_count := none
      therapeutic_quality := some (extract_quality_score content)
      safety_flags := some (extract_safety_flags content) }
  | .error e =>
    { content := "Primary model error: ".toList ++ e
      model_name := "gpt-4o"
      response_time := 0
      therapeutic_quality := some 0
      safety_flags := some ["error"] }

/-- `DualModelValidator.get_validation_response` (lines 242-284), with the
vendor call as oracle as in `get_primary_response`. -/
def get_validation_response (outcome : Except (List Char) (List Char)) : ModelResponse :=
  match outcome with
  | .ok content =>
    { content := content
      model_name := "claude-3-5-sonnet-20241022"
      response_time := 0
      confidence_score := some (extract_validation_score content)
      safety_flags := some (extract_safety_flags content) }
  | .error e =>
    { content := "Validation error: ".toList ++ e
      model_name := "claude-3-5-sonnet-20241022"
      response_time := 0
      confidence_score := some 0
      safety_flags := some ["error"] }

/-- The hard-coded fallback text of `validate_response` (line 331). -/
def fallback_apology : List Char :=
  ("I apologize, but I\x27m experiencing technical difficulties. Please consider "
   ++ "reaching out to a mental health professional or call 9999 for emergency "
   ++ "support.").toList

/-- `DualModelValidator.validate_response` (lines 286-338).  The two vendor
calls are the oracles `primary_outcome` and `validation_outcome` (each caught
*inside* its helper).  `orchestration_error` models the outer
`except Exception` of `validate_response` itself: `some e` stands for an
exception raised in the `try` body escaping the helpers' own handlers, upon
which the hard-coded fallback result is returned. -/
def validate_response (primary_outcome validation_outcome : Except (List Char) (List Char))
    (orchestration_error : Option (List Char)) : DualModelResult :=
  match orchestration_error with
  | some _ =>
    { primary_response :=
        { content := "Error".toList, model_name := "unknown", response_time := 0 }
      secondary_response :=
        { content := "Error".toList, model_name := "unknown", response_time := 0 }
      final_response := fallback_apology
      validation_status := ValidationStatus.ERROR
      consensus_score := 0
      therapeutic_grade := "F"
      validation_time := 0
      recommendations := ["Seek professional help",
                          "Contact emergency services if in crisis"]
      safety_assessment :=
        { flags := [], status := "error", recommendation := "professional_help" } }
  | none =>
    let primary_response := get_primary_response primary_outcome
    let validation_response := get_validation_response validation_outcome
    let c := analyze_consensus primary_response validation_response
    { primary_response := primary_response
      secondary_response := validation_response
      final_response := c.final_response
      validation_status := c.status
      consensus_score := c.consensus_score
      therapeutic_grade := c.therapeutic_grade
      validation_time := 0
      recommendations := c.recommendations
      safety_assessment := c.safety_assessment }

/-! ## `ai_service.py`: conversation-history update of `AIService.get_response` -/

/-- One entry of `AIService.conversation_history`: a role/content dict. -/
structure ChatMessage where
  role : String
  content : List Char
deriving DecidableEq, Repr

/-- The effect of one `AIService.get_response` call on
`self.conversation_history` (ai_service.py lines 50-107).  The oracle
`outcome` is the body up to the history update: `.ok final_response` when no
exception was raised (the appends at lines 69-76 then run, followed by the
trim at lines 79-80, Python `history[-20:]`), `.error e` when an exception
escaped to the `except` handler at line 93 (which builds a fallback reply and
returns without touching the history; nothing after the appends can raise). -/
def get_response_history (hist : List ChatMessage) (user_message : List Char)
    (outcome : Except (List Char) (List Char)) : List ChatMessage :=
  match outcome with
  | .ok final_response =>
    let h := hist ++ [⟨"user", user_message⟩, ⟨"assistant", final_response⟩]
    if h.length > 20 then h.drop (h.length - 20) else h
  | .error _ => hist

/-- A sequence of `get_response` calls starting from the empty history of
`AIService.__init__` (line 35), each given by its user message and body
outcome. -/
def run_conversation
    (calls : List (List Char × Except (List Char) (List Char))) : List ChatMessage :=
  calls.foldl (fun h c => get_response_history h c.1 c.2) []

/-! ## `speech_service.py`: `SpeechService.speech_to_text` -/

/-- The result dict of `SpeechService.speech_to_text`.  The Python dict's keys
vary by branch; a key absent from a branch is `none`.  Wall-clock and static
metadata keys (`processing_time`, `confidence`, `api_used`, `whisper_info`)
are omitted: they feed no decision. -/
structure SttResult where
  success : Bool
  text : List Char
  error : Option (List Char) := none
  language : Option String := none
  is_codeswitching : Option Bool := none
  audio_duration : Option ℚ := none
  audio_volume : Option ℚ := none
deriving DecidableEq, Repr

/-- `expected_languages` (speech_service.py line 155). -/
def expected_languages : List String :=
  ["ar", "en", "arabic", "english", "auto-detected", "unknown"]

/-- The Whisper artifact/noise patterns rejected at line 168. -/
def noise_artifacts : List (List Char) :=
  ["uh".toList, "um".toList, "ah".toList, "mm".toList, "hm".toList,
   ".".toList, "!".toList, "?".toList, " ".toList]

/-- `str.lower()` on a Lean `String`. -/
def pyLowerStr (s : String) : String := ⟨pyLower s.toList⟩

/-- The three-stage transcription fallback of `speech_to_text`
(speech_service.py lines 135-246), after the audio checks passed (or the
audio analysis raised, leaving `duration_seconds = 0`, `avg_volume = 0`).

The vendor calls are oracles: `auto` yields the verbose transcript text and
its reported language (a transcript without a `language` attribute reports
`"auto-detected"`), `arabic`/`english` yield plain text; `.error` is a raised
exception, logged and treated as an empty transcription.  Returns the result
and the number of vendor transcription calls made. -/
def transcription_attempts (auto : Except Unit (List Char × String))
    (arabic english : Except Unit (List Char)) (duration volume : ℚ)
    (fmt1 fmt4 : ℚ → List Char) : SttResult × ℕ :=
  let afterAuto : List Char × String :=
    match auto with
    | .ok (t, lang) =>
      let tt := pyStrip t
      if pyLowerStr lang ∉ expected_languages then ([], "filtered-out-" ++ lang)
      else if ¬ tt.isEmpty then
        if (pyStrip tt).length < 2 then ([], lang)
        else if pyLower (pyStrip tt) ∈ noise_artifacts then ([], lang)
        else (tt, lang)
      else ([], lang)
    | .error _ => ([], "unknown")
  let afterAr : List Char × String :=
    if afterAuto.1.isEmpty then
      match arabic with
      | .ok t => (pyStrip t, "ar")
      | .error _ => afterAuto
    else afterAuto
  let afterEn : List Char × String :=
    if afterAr.1.isEmpty then
      match english with
      | .ok t => (pyStrip t, "en")
      | .error _ => afterAr
    else afterAr
  let calls := 1 + (if afterAuto.1.isEmpty then 1 else 0)
    + (if afterAr.1.isEmpty then 1 else 0)
  if afterEn.1.isEmpty then
    ({ success := false
       error := some ("No speech detected in any language - Duration: ".toList
         ++ fmt1 duration ++ "s, Volume: ".toList ++ fmt4 volume
         ++ ". Try speaking louder and longer.".toList)
       text := []
       audio_duration := some duration
       audio_volume := some volume }, calls)
  else
    ({ success := true
       text := afterEn.1
       language := some afterEn.2
       is_codeswitching := some (detect_codeswitching afterEn.1)
       audio_duration := some duration
       audio_volume := some volume }, calls)

/-- `SpeechService.speech_to_text` (speech_service.py lines 62-262).

  - `client_available` is `self.openai_client` being set;
  - `decoded` is the `soundfile` decode of the input bytes: `some (data, sr)`
    on success (the sample list and sample rate, so
    `duration_seconds = len(data) / sample_rate` and
    `avg_volume = np.mean(np.abs(data))` when `data` is non-empty, else `0`),
    `none` when the analysis raised (lines 125-129: both set to `0` and the
    checks are skipped);
  - `fmt1`/`fmt4` model the `f"{x:.1f}"` / `f"{x:.4f}"` number formatting in
    the error strings;
  - `orchestration_error` models the outer `except Exception` (lines 255-262):
    `some e` stands for an exception escaping the body, returned as a failure
    carrying `str(e)`.
Returns the result dict and the number of vendor transcription calls made. -/
def speech_to_text (client_available : Bool) (decoded : Option (List ℚ × ℚ))
    (auto : Except Unit (List Char × String)) (arabic english : Except Unit (List Char))
    (fmt1 fmt4 : ℚ → List Char) (orchestration_error : Option (List Char)) :
    SttResult × ℕ :=
  match orchestration_error with
  | some e => ({ success := false, error := some e, text := [] }, 0)
  | none =>
    if ¬ client_available then
      ({ success := false
         error := some "OpenAI Whisper API not available - API key required".toList
         text := [] }, 0)
    else
      match decoded with
      | some (data, sample_rate) =>
        let duration_seconds : ℚ := (data.length : ℚ) / sample_rate
        let avg_volume : ℚ :=
          if data.length > 0 then (data.map (fun x => |x|)).sum / (data.length : ℚ)
          else 0
        if duration_seconds < mkRat 1 2 then
          ({ success := false
             error := some ("Audio too short (".toList ++ fmt1 duration_seconds
               ++ "s) - minimum 0.5 seconds required".toList)
             text := []
             audio_duration := some duration_seconds
             audio_volume := some avg_volume }, 0)
        else if avg_volume < mkRat 1 1000 then
          ({ success := false
             error := some ("Audio too quiet (".toList ++ fmt4 avg_volume
               ++ ") - please speak louder and closer to microphone".toList)
             text := []
             audio_duration := some duration_seconds
             audio_volume := some avg_volume }, 0)
        else
          transcription_attempts auto arabic english duration_seconds avg_volume fmt1 fmt4
      | none => transcription_attempts auto arabic english 0 0 fmt1 fmt4

/-! ## Helper lemmas -/

/-- `pyIn` decides `List.IsInfix`. -/
theorem pyIn_iff (n : List Char) (h : List Char) : pyIn n h = true ↔ n <:+: h := by
  induction h with
  | nil =>
    simp [pyIn, List.isEmpty_iff, List.infix_nil]
  | cons c t ih =>
    simp [pyIn, List.infix_cons_iff, ih]

/-- Every flag `_extract_safety_flags` emits is one of its three candidates. -/
theorem mem_extract_safety_flags {f : String} {c : List Char}
    (hf : f ∈ extract_safety_flags c) :
    f = "crisis" ∨ f = "professional" ∨ f = "caution" := by
  unfold extract_safety_flags at hf
  rcases List.mem_append.1 hf with h | h
  · rcases List.mem_append.1 h with h' | h' <;> split at h' <;> simp_all
  · split at h <;> simp_all

/-- `_extract_safety_flags` never emits `"error"`: that flag only comes from
the `except` branches of the two model-call helpers. -/
theorem error_not_mem_extract (c : List Char) :
    "error" ∉ extract_safety_flags c := by
  intro h
  rcases mem_extract_safety_flags h with h' | h' | h' <;> exact absurd h' (by decide)

/-- The `status` field of `_analyze_consensus`, spelt out. -/
theorem analyze_consensus_status_def (p v : ModelResponse) :
    (analyze_consensus p v).status =
      (if "error" ∈ ((p.safety_flags.getD []) ++ (v.safety_flags.getD [])).dedup then
        ValidationStatus.ERROR
      else if "crisis" ∈ ((p.safety_flags.getD []) ++ (v.safety_flags.getD [])).dedup then
        ValidationStatus.FAILED
      else if min (p.therapeutic_quality.getD 0 / 10) (v.confidence_score.getD 0 / 10)
          ≥ min_consensus_score then
        ValidationStatus.PASSED
      else if |p.therapeutic_quality.getD 0 - v.confidence_score.getD 0 * 10| > 3 then
        ValidationStatus.CONFLICT
      else ValidationStatus.FAILED) := rfl

/-- The `consensus_score` field of `_analyze_consensus`, spelt out. -/
theorem analyze_consensus_score_def (p v : ModelResponse) :
    (analyze_consensus p v).consensus_score =
      min (p.therapeutic_quality.getD 0 / 10) (v.confidence_score.getD 0 / 10) := rfl

/-- The `therapeutic_grade` field of `_analyze_consensus`, spelt out. -/
theorem analyze_consensus_grade_def (p v : ModelResponse) :
    (analyze_consensus p v).therapeutic_grade =
      therapeutic_grade_of (analyze_consensus p v).consensus_score := rfl

/-- Rank of the letter grades, `"F"` lowest. -/
def gradeRank : String → ℕ
  | "A+" => 5
  | "A" => 4
  | "B+" => 3
  | "B" => 2
  | "C" => 1
  | _ => 0

/-- The grade ladder is monotone in the consensus score. -/
theorem gradeRank_mono {c₁ c₂ : ℚ} (h : c₁ ≤ c₂) :
    gradeRank (therapeutic_grade_of c₁) ≤ gradeRank (therapeutic_grade_of c₂) := by
  unfold therapeutic_grade_of
  split_ifs <;> first | decide | linarith

/-- One `get_response` call keeps the history within the 20-entry window. -/
theorem get_response_history_le (hist : List ChatMessage) (u : List Char)
    (o : Except (List Char) (List Char)) (h : hist.length ≤ 20) :
    (get_response_history hist u o).length ≤ 20 := by
  cases o with
  | error e => exact h
  | ok f =>
    simp only [get_response_history]
    split
    · rename_i hlen
      rw [List.length_drop]
      omega
    · rename_i hlen
      omega

/-! ## The claims -/

/-- C1: at primary content "Therapeutic Quality: 5" and secondary content
"Overall Score: 5" both extracted raw scores are 5 and no safety flag is
raised, so the two raw scores differ by 0 ≤ 3 points and the claimed decision
order would give FAILED; the code's conflict test
`abs(primary_quality - validation_score * 10) > 3.0` multiplies the secondary
score by 10 (although `consensus_score` two lines above divides the very same
value by 10), compares |5 - 50| = 45 > 3, and returns CONFLICT. -/
theorem C1_equal_scores_yield_conflict :
    (analyze_consensus (get_primary_response (Except.ok "Therapeutic Quality: 5".toList))
      (get_validation_response (Except.ok "Overall Score: 5".toList))).status
      = ValidationStatus.CONFLICT
    ∧ ValidationStatus.CONFLICT ≠ ValidationStatus.FAILED := by
  constructor
  · decide
  · decide

/-- C2 counterexample: when both vendor calls raise "Connection timeout", the
exceptions are caught inside `get_primary_response` / `get_validation_response`
and `validate_response` returns the consensus result: its status is ERROR but
its `final_response` is the primary helper's error text, not the hard-coded
apology string. -/
theorem C2_counterexample_error_without_apology :
    (validate_response (Except.error "Connection timeout".toList)
      (Except.error "Connection timeout".toList) none).validation_status
      = ValidationStatus.ERROR
    ∧ (validate_response (Except.error "Connection timeout".toList)
        (Except.error "Connection timeout".toList) none).final_response
      ≠ fallback_apology
    ∧ (validate_response (Except.error "Connection timeout".toList)
        (Except.error "Connection timeout".toList) none).final_response
      = "Primary model error: Connection timeout".toList := by
  refine ⟨by decide, by decide, by decide⟩

/-- C2 (amended): for every exception raised during the primary or the
secondary model call, `validate_response` returns a `DualModelResult` whose
`validation_status` is ERROR; the hard-coded apology string is returned only
when an exception escapes the body of `validate_response` itself. -/
theorem C2_amended_exception_yields_error_status
    (e : List Char) (po vo : Except (List Char) (List Char))
    (h : po = Except.error e ∨ vo = Except.error e) :
    (validate_response po vo none).validation_status = ValidationStatus.ERROR := by
  have hres : (validate_response po vo none).validation_status
      = (analyze_consensus (get_primary_response po) (get_validation_response vo)).status := rfl
  rw [hres, analyze_consensus_status_def]
  have hmem : ("error" : String) ∈
      (((get_primary_response po).safety_flags.getD [])
        ++ ((get_validation_response vo).safety_flags.getD [])).dedup := by
    rw [List.mem_dedup, List.mem_append]
    rcases h with h | h
    · subst h; exact Or.inl (by simp [get_primary_response])
    · subst h; exact Or.inr (by simp [get_validation_response])
  simp [hmem]

/-- C2 witness: the amended statement at a concrete primary-call exception. -/
theorem C2_amended_witness :
    (validate_response (Except.error "boom".toList) (Except.ok "Overall Score: 9".toList)
      none).validation_status = ValidationStatus.ERROR :=
  C2_amended_exception_yields_error_status "boom".toList _ _ (Or.inl rfl)

/-- C3: whenever either content's extracted safety flags include "crisis", the
consensus status is FAILED regardless of the numeric scores (the extracted
flags never contain "error", so the ERROR branch cannot pre-empt the crisis
branch); in particular primary "Therapeutic Quality: 9" against secondary
"Overall Score: 9\nSafety Status: Crisis" is FAILED, not PASSED. -/
theorem C3_crisis_flag_forces_failed (c₁ c₂ : List Char)
    (h : "crisis" ∈ extract_safety_flags c₁ ∨ "crisis" ∈ extract_safety_flags c₂) :
    (analyze_consensus (get_primary_response (Except.ok c₁))
      (get_validation_response (Except.ok c₂))).status = ValidationStatus.FAILED
    ∧ (analyze_consensus (get_primary_response (Except.ok "Therapeutic Quality: 9".toList))
        (get_validation_response
          (Except.ok "Overall Score: 9\nSafety Status: Crisis".toList))).status
      = ValidationStatus.FAILED
    ∧ ValidationStatus.FAILED ≠ ValidationStatus.PASSED := by
  refine ⟨?_, by decide, by decide⟩
  rw [analyze_consensus_status_def]
  have hflags₁ : (get_primary_response (Except.ok c₁)).safety_flags.getD []
      = extract_safety_flags c₁ := rfl
  have hflags₂ : (get_validation_response (Except.ok c₂)).safety_flags.getD []
      = extract_safety_flags c₂ := rfl
  rw [hflags₁, hflags₂]
  have herr : ("error" : String) ∉ (extract_safety_flags c₁ ++ extract_safety_flags c₂).dedup := by
    rw [List.mem_dedup, List.mem_append]
    rintro (hh | hh) <;> exact error_not_mem_extract _ hh
  have hcr : ("crisis" : String) ∈ (extract_safety_flags c₁ ++ extract_safety_flags c₂).dedup := by
    rw [List.mem_dedup, List.mem_append]; exact h
  simp [herr, hcr]

/-- C3 witness: the 9-vs-9 crisis example instantiating the hypothesis. -/
theorem C3_crisis_witness :
    (analyze_consensus
      (get_primary_response (Except.ok "Therapeutic Quality: 9".toList))
      (get_validation_response
        (Except.ok "Overall Score: 9\nSafety Status: Crisis".toList))).status
      = ValidationStatus.FAILED :=
  (C3_crisis_flag_forces_failed "Therapeutic Quality: 9".toList
    "Overall Score: 9\nSafety Status: Crisis".toList (Or.inr (by decide))).1

/-- C10: the regex extractors return the matched decimal unclamped ("Overall
Score: 100" gives 100.0, "Therapeutic Quality: 100" gives 100.0) and no later
step clamps the consensus score to [0,1]: at those contents
`_analyze_consensus` yields a consensus score of 10.0 > 1.0 with grade "A+". -/
theorem C10_scores_unclamped :
    extract_validation_score "Overall Score: 100".toList = 100
    ∧ extract_quality_score "Therapeutic Quality: 100".toList = 100
    ∧ (analyze_consensus (get_primary_response (Except.ok "Therapeutic Quality: 100".toList))
        (get_validation_response (Except.ok "Overall Score: 100".toList))).consensus_score
      = 10
    ∧ (1 : ℚ) <
      (analyze_consensus (get_primary_response (Except.ok "Therapeutic Quality: 100".toList))
        (get_validation_response (Except.ok "Overall Score: 100".toList))).consensus_score
    ∧ (analyze_consensus (get_primary_response (Except.ok "Therapeutic Quality: 100".toList))
        (get_validation_response
          (Except.ok "Overall Score: 100".toList))).therapeutic_grade = "A+" := by
  refine ⟨by decide, by decide, by decide, by decide, by decide⟩

/-- C9: `validate_response` is total at its interface: an exception in the
primary (resp. secondary) vendor call is caught inside its helper and becomes
a `ModelResponse` carrying `safety_flags = ["error"]`; an exception escaping
to `validate_response`'s own handler becomes the ERROR fallback result; and on
every pair of call outcomes with no escaping exception the returned
`DualModelResult` is the one assembled from the consensus analysis of the two
helper responses. -/
theorem C9_validate_response_total
    (e : List Char) (po vo : Except (List Char) (List Char)) :
    (get_primary_response (Except.error e)).safety_flags = some ["error"]
    ∧ (get_validation_response (Except.error e)).safety_flags = some ["error"]
    ∧ (validate_response po vo (some e)).validation_status = ValidationStatus.ERROR
    ∧ (validate_response po vo (some e)).final_response = fallback_apology
    ∧ validate_response po vo none =
      { primary_response := get_primary_response po
        secondary_response := get_validation_response vo
        final_response := (analyze_consensus (get_primary_response po)
          (get_validation_response vo)).final_response
        validation_status := (analyze_consensus (get_primary_response po)
          (get_validation_response vo)).status
        consensus_score := (analyze_consensus (get_primary_response po)
          (get_validation_response vo)).consensus_score
        therapeutic_grade := (analyze_consensus (get_primary_response po)
          (get_validation_response vo)).therapeutic_grade
        validation_time := 0
        recommendations := (analyze_consensus (get_primary_response po)
          (get_validation_response vo)).recommendations
        safety_assessment := (analyze_consensus (get_primary_response po)
          (get_validation_response vo)).safety_assessment } := by
  exact ⟨rfl, rfl, rfl, rfl, rfl⟩

/-- C4: `_detect_crisis` returns true exactly on the texts containing some
configured crisis keyword, matched case-insensitively: the text is lower-cased
and each keyword list is tested by substring membership (the Arabic and
English keywords are already fixed points of lower-casing; the mixed ones are
lower-cased before the test). -/
theorem C4_detect_crisis_iff_keyword (text : List Char) :
    detect_crisis text = true ↔
      ∃ k ∈ CRISIS_KEYWORDS_AR ++ CRISIS_KEYWORDS_EN ++ CRISIS_KEYWORDS_MIXED,
        pyLower k <:+: pyLower text := by
  have hAR : ∀ k ∈ CRISIS_KEYWORDS_AR, pyLower k = k := by decide
  have hEN : ∀ k ∈ CRISIS_KEYWORDS_EN, pyLower k = k := by decide
  unfold detect_crisis
  simp only [Bool.or_eq_true, List.any_eq_true]
  constructor
  · rintro ((⟨k, hk, hin⟩ | ⟨k, hk, hin⟩) | ⟨k, hk, hin⟩)
    · exact ⟨k, by simp [hk], by rw [hAR k hk]; exact (pyIn_iff _ _).1 hin⟩
    · exact ⟨k, by simp [hk], by rw [hEN k hk]; exact (pyIn_iff _ _).1 hin⟩
    · exact ⟨k, by simp [hk], (pyIn_iff _ _).1 hin⟩
  · rintro ⟨k, hk, hinf⟩
    rcases List.mem_append.1 hk with hk' | hk₃
    · rcases List.mem_append.1 hk' with hk₁ | hk₂
      · exact Or.inl (Or.inl ⟨k, hk₁, (pyIn_iff _ _).2 (by rw [← hAR k hk₁]; exact hinf)⟩)
      · exact Or.inl (Or.inr ⟨k, hk₂, (pyIn_iff _ _).2 (by rw [← hEN k hk₂]; exact hinf)⟩)
    · exact Or.inr ⟨k, hk₃, (pyIn_iff _ _).2 hinf⟩

/-- C6: `_detect_codeswitching` is true exactly when the text has both an
Arabic-block character and an ASCII letter, or at least two mixed-phrase
patterns occur in it (case-insensitively); in particular any text with at
least two Arabic-block characters and an ASCII letter is detected. -/
theorem C6_detect_codeswitching_characterisation (text : List Char) :
    (detect_codeswitching text
      = ((text.any isArabicChar && text.any isAsciiLetter)
        || decide (2 ≤ codeswitching_indicators (pyLower text))))
    ∧ (2 ≤ (text.filter isArabicChar).length → text.any isAsciiLetter = true →
        detect_codeswitching text = true) := by
  constructor
  · cases text with
    | nil => decide
    | cons c t => rfl
  · intro h2 hE
    have hA : text.any isArabicChar = true := by
      rcases hcase : text.filter isArabicChar with _ | ⟨a, l⟩
      · rw [hcase] at h2; simp at h2
      · have ha : a ∈ text.filter isArabicChar := by
          rw [hcase]; exact List.mem_cons_self a l
        rcases List.mem_filter.1 ha with ⟨hmem, hprop⟩
        exact List.any_eq_true.2 ⟨a, hmem, hprop⟩
    cases text with
    | nil => simp at h2
    | cons c t =>
      unfold detect_codeswitching
      simp [hA, hE]

/-- C8: the conversation history of `AIService` holds at most 20 entries: a
call within the window stays within the window, a successful call appends the
user then the assistant turn and trims to the most recent 20 entries, an
exception leaves the history unchanged, and every conversation started from
the empty history stays within 20 entries. -/
theorem C8_history_window_invariant (hist : List ChatMessage) (u : List Char)
    (o : Except (List Char) (List Char)) (h : hist.length ≤ 20) :
    (get_response_history hist u o).length ≤ 20
    ∧ (∀ e : List Char, get_response_history hist u (Except.error e) = hist)
    ∧ (∀ f : List Char,
        get_response_history hist u (Except.ok f)
          = (let h' := hist ++ [⟨"user", u⟩, ⟨"assistant", f⟩];
             if h'.length > 20 then h'.drop (h'.length - 20) else h'))
    ∧ (∀ calls, (run_conversation calls).length ≤ 20) := by
  refine ⟨get_response_history_le hist u o h, fun e => rfl, fun f => rfl, ?_⟩
  intro calls
  have H : ∀ (cs : List (List Char × Except (List Char) (List Char)))
      (h0 : List ChatMessage), h0.length ≤ 20 →
      (List.foldl (fun acc c => get_response_history acc c.1 c.2) h0 cs).length ≤ 20 := by
    intro cs
    induction cs with
    | nil => intro h0 hh; exact hh
    | cons c cs ih => intro h0 hh; exact ih _ (get_response_history_le _ _ _ hh)
  exact H calls [] (by decide)

/-- C8 witness: one successful call from the empty history. -/
theorem C8_history_witness :
    (get_response_history [] "hello".toList (Except.ok "hi there".toList)).length ≤ 20
    ∧ (∀ e : List Char, get_response_history [] "hello".toList (Except.error e) = [])
    ∧ (∀ f : List Char,
        get_response_history [] "hello".toList (Except.ok f)
          = (let h' := ([] : List ChatMessage) ++ [⟨"user", "hello".toList⟩, ⟨"assistant", f⟩];
             if h'.length > 20 then h'.drop (h'.length - 20) else h'))
    ∧ (∀ calls, (run_conversation calls).length ≤ 20) :=
  C8_history_window_invariant [] "hello".toList (Except.ok "hi there".toList) (by decide)

/-- C5: the therapeutic grade is a monotone non-decreasing function of the
minimum of the two 10-point scores; the consensus score equals
`min(primary_score, secondary_score) / 10` and the grade is the fixed
threshold ladder applied to it; in particular scores (9,9) grade "A+", (5,9)
grade "C", (3,3) grade "F". -/
theorem C5_grade_monotone_in_min_score (p₁ v₁ p₂ v₂ : ModelResponse)
    (h : min (p₁.therapeutic_quality.getD 0) (v₁.confidence_score.getD 0)
        ≤ min (p₂.therapeutic_quality.getD 0) (v₂.confidence_score.getD 0)) :
    gradeRank (analyze_consensus p₁ v₁).therapeutic_grade
      ≤ gradeRank (analyze_consensus p₂ v₂).therapeutic_grade
    ∧ (analyze_consensus p₁ v₁).consensus_score
      = min (p₁.therapeutic_quality.getD 0) (v₁.confidence_score.getD 0) / 10
    ∧ (analyze_consensus p₁ v₁).therapeutic_grade
      = therapeutic_grade_of (analyze_consensus p₁ v₁).consensus_score
    ∧ (analyze_consensus (get_primary_response (Except.ok "Therapeutic Quality: 9".toList))
        (get_validation_response (Except.ok "Overall Score: 9".toList))).therapeutic_grade
      = "A+"
    ∧ (analyze_consensus (get_primary_response (Except.ok "Therapeutic Quality: 5".toList))
        (get_validation_response (Except.ok "Overall Score: 9".toList))).therapeutic_grade
      = "C"
    ∧ (analyze_consensus (get_primary_response (Except.ok "Therapeutic Quality: 3".toList))
        (get_validation_response (Except.ok "Overall Score: 3".toList))).therapeutic_grade
      = "F" := by
  have hmin : ∀ p v : ModelResponse, (analyze_consensus p v).consensus_score
      = min (p.therapeutic_quality.getD 0) (v.confidence_score.getD 0) / 10 := by
    intro p v
    rw [analyze_consensus_score_def, min_div_div_right (by norm_num : (0:ℚ) ≤ 10)]
  refine ⟨?_, hmin p₁ v₁, analyze_consensus_grade_def p₁ v₁,
    by decide, by decide, by decide⟩
  rw [analyze_consensus_grade_def, analyze_consensus_grade_def, hmin, hmin]
  exact gradeRank_mono ((div_le_div_iff_of_pos_right (by norm_num : (0:ℚ) < 10)).2 h)

/-- C5 witness: the monotonicity at scores (3,3) against (9,9). -/
theorem C5_grade_monotone_witness :
    gradeRank (analyze_consensus
        { content := [], model_name := "gpt-4o", response_time := 0,
          therapeutic_quality := some 3 }
        { content := [], model_name := "claude", response_time := 0,
          confidence_score := some 3 }).therapeutic_grade
      ≤ gradeRank (analyze_consensus
        { content := [], model_name := "gpt-4o", response_time := 0,
          therapeutic_quality := some 9 }
        { content := [], model_name := "claude", response_time := 0,
          confidence_score := some 9 }).therapeutic_grade :=
  (C5_grade_monotone_in_min_score
    { content := [], model_name := "gpt-4o", response_time := 0,
      therapeutic_quality := some 3 }
    { content := [], model_name := "claude", response_time := 0,
      confidence_score := some 3 }
    { content := [], model_name := "gpt-4o", response_time := 0,
      therapeutic_quality := some 9 }
    { content := [], model_name := "claude", response_time := 0,
      confidence_score := some 9 }
    (by decide)).1

/-- C7: for every decoded audio input whose duration is under 0.5 seconds or
whose mean absolute volume is below the 0.001 floor, `speech_to_text` rejects
it with `success = False`, empty text and the corresponding specific
user-facing reason, and makes zero vendor transcription calls. -/
theorem C7_short_or_quiet_audio_rejected
    (data : List ℚ) (sample_rate : ℚ)
    (auto : Except Unit (List Char × String)) (arabic english : Except Unit (List Char))
    (fmt1 fmt4 : ℚ → List Char)
    (h : (data.length : ℚ) / sample_rate < mkRat 1 2
      ∨ (if data.length > 0 then (data.map (fun x => |x|)).sum / (data.length : ℚ) else 0)
        < mkRat 1 1000) :
    (speech_to_text true (some (data, sample_rate)) auto arabic english fmt1 fmt4
      none).1.success = false
    ∧ (speech_to_text true (some (data, sample_rate)) auto arabic english fmt1 fmt4
      none).1.text = []
    ∧ (speech_to_text true (some (data, sample_rate)) auto arabic english fmt1 fmt4
      none).2 = 0
    ∧ (speech_to_text true (some (data, sample_rate)) auto arabic english fmt1 fmt4
      none).1.error
      = some (if (data.length : ℚ) / sample_rate < mkRat 1 2 then
          "Audio too short (".toList ++ fmt1 ((data.length : ℚ) / sample_rate)
            ++ "s) - minimum 0.5 seconds required".toList
        else
          "Audio too quiet (".toList
            ++ fmt4 (if data.length > 0 then
                (data.map (fun x => |x|)).sum / (data.length : ℚ) else 0)
            ++ ") - please speak louder and closer to microphone".toList) := by
  by_cases hd : (data.length : ℚ) / sample_rate < mkRat 1 2
  · refine ⟨?_, ?_, ?_, ?_⟩ <;> simp [speech_to_text, hd]
  · have hv : (if data.length > 0 then
        (data.map (fun x => |x|)).sum / (data.length : ℚ) else 0) < mkRat 1 1000 :=
      h.resolve_left hd
    refine ⟨?_, ?_, ?_, ?_⟩ <;> simp [speech_to_text, hd, hv]

/-- C7 witness: a one-sample clip at sample rate 10 (duration 0.1 s). -/
theorem C7_short_audio_witness :
    (speech_to_text true (some ([0], 10)) (Except.error ()) (Except.error ())
      (Except.error ()) (fun _ => []) (fun _ => []) none).1.success = false
    ∧ (speech_to_text true (some ([0], 10)) (Except.error ()) (Except.error ())
      (Except.error ()) (fun _ => []) (fun _ => []) none).1.text = []
    ∧ (speech_to_text true (some ([0], 10)) (Except.error ()) (Except.error ())
      (Except.error ()) (fun _ => []) (fun _ => []) none).2 = 0
    ∧ (speech_to_text true (some ([0], 10)) (Except.error ()) (Except.error ())
      (Except.error ()) (fun _ => []) (fun _ => []) none).1.error
      = some (if ((([0] : List ℚ).length : ℚ) / 10) < mkRat 1 2 then
          "Audio too short (".toList
            ++ (fun (_ : ℚ) => ([] : List Char)) ((([0] : List ℚ).length : ℚ) / 10)
            ++ "s) - minimum 0.5 seconds required".toList
        else
          "Audio too quiet (".toList
            ++ (fun (_ : ℚ) => ([] : List Char)) (if ([0] : List ℚ).length > 0 then
                (([0] : List ℚ).map (fun x => |x|)).sum / ((([0] : List ℚ).length : ℚ))
              else 0)
            ++ ") - please speak louder and closer to microphone".toList) :=
  C7_short_or_quiet_audio_rejected [0] 10 (Except.error ()) (Except.error ())
    (Except.error ()) (fun _ => []) (fun _ => []) (Or.inl (by decide))
